import Mathlib

/-!
# SumiClock — shallow embedding and verification

A shallow Lean 4 embedding of the SumiClock clock-image service
(`src/config.py`, `src/api.py`, `src/clock_generator.py`,
`src/template_renderer.py`, `src/weather_icon_generator.py`) together with
theorems settling the specification claims.

External effects (the OpenWeatherMap HTTP fetch, filesystem existence
checks, SVG rasterization, font loading) are modelled as explicit oracle
parameters; all pure control flow is translated directly from the Python
source.  Python `int`s are modelled as `Int`, Python strings as `String`,
optional/None-returning functions as `Option`.
-/

namespace SumiClock

/-! ## config.py -/

/-- Redis section of the YAML configuration (`config.yaml` / `load_config`). -/
structure RedisConfig where
  host : String
  port : Int
  cache_expire_seconds : Int
  deriving Repr, DecidableEq

/-- Clock section of the YAML configuration. -/
structure FileClockConfig where
  timezone : String
  width : Int
  height : Int
  font_size : Int
  font_path : String
  date_font_size : Int
  weather_font_size : Int
  dark_mode_start : Int
  dark_mode_end : Int
  display_weather : Bool
  weather_api_key : String
  weather_city : String
  weather_units : String
  weather_icon_size : Int × Int
  portrait_mode : Bool
  use_templates : Bool
  template_dir : String
  deriving Repr, DecidableEq

/-- The full configuration dictionary returned by `load_config`. -/
structure AppConfig where
  redis : RedisConfig
  clock : FileClockConfig
  deriving Repr, DecidableEq

/-- Model of Python `str.upper` as a character-wise map. -/
def pyUpper (s : String) : String := String.mk (s.data.map Char.toUpper)

/-- Model of Python `str.lower` as a character-wise map. -/
def pyLower (s : String) : String := String.mk (s.data.map Char.toLower)

/-- `config.get_env_value`: look up `SUMICLOCK_<KEY>` in the process
environment (`env` is the `os.getenv` oracle) and fall back to the default. -/
def get_env_value (env : String → Option String) (key default_value : String) : String :=
  (env ("SUMICLOCK_" ++ pyUpper key)).getD default_value

/-- Numeric value of a decimal digit character. -/
def digitVal (c : Char) : Nat := c.toNat - '0'.toNat

/-- Value of a list of decimal digit characters. -/
def decDigits (l : List Char) : Nat :=
  l.foldl (fun acc c => acc * 10 + digitVal c) 0

/-- Model of Python `int(s)` on well-formed decimal strings (an optional
leading minus sign followed by digits).  The real `int()` raises on
malformed input, which `load_config` does not catch; malformed strings are
outside the behaviour any claim exercises. -/
def pyInt (s : String) : Int :=
  match s.data with
  | '-' :: rest => -(Int.ofNat (decDigits rest))
  | l => Int.ofNat (decDigits l)

/-- `config.load_config`, success path: the YAML file parsed to `file`,
then the environment overrides from `src/config.py` lines 22-32 applied.
Only `redis.host`, `redis.port`, `redis.cache_expire_seconds` and
`clock.timezone` consult the environment. -/
def load_config (env : String → Option String) (file : AppConfig) : AppConfig :=
  { redis :=
      { host := get_env_value env "REDIS_HOST" file.redis.host
        port := pyInt (get_env_value env "REDIS_PORT" (toString file.redis.port))
        cache_expire_seconds :=
          pyInt (get_env_value env "REDIS_CACHE_EXPIRE_SECONDS"
            (toString file.redis.cache_expire_seconds)) }
    clock := { file.clock with
      timezone := get_env_value env "TIMEZONE" file.clock.timezone } }

/-! ## api.py — orientation and cache keys -/

/-- The `Orientation` enum of `src/api.py`. -/
inductive Orientation where
  | landscape
  | portrait
  deriving Repr, DecidableEq

/-- The string value of an `Orientation` member. -/
def Orientation.value : Orientation → String
  | .landscape => "landscape"
  | .portrait => "portrait"

/-- `api.get_cache_key`: `current_minute` models
`datetime.now().strftime("%Y%m%d%H%M")` (the server clock truncated to the
minute, an external input), `timezone` is `config['clock']['timezone']`. -/
def get_cache_key (timezone : String) (orientation : Option Orientation)
    (current_minute : String) : String :=
  let orientation_part := match orientation with
    | some o => ":" ++ o.value
    | none => ""
  "clock_image:" ++ timezone ++ orientation_part ++ ":" ++ current_minute

/-! ## clock_generator.py — generator state -/

/-- The mutable attributes of `ClockGenerator` set in `__init__` that the
rendering methods read. -/
structure ClockGenerator where
  width : Int
  height : Int
  font_size : Int
  font_path : String
  date_font_size : Int
  weather_font_size : Int
  timezone : String
  dark_mode_start : Int
  dark_mode_end : Int
  display_weather : Bool
  weather_api_key : String
  weather_city : String
  weather_units : String
  weather_icon_size : Int × Int
  portrait_mode : Bool
  use_templates : Bool
  template_dir : String
  deriving Repr, DecidableEq

/-- `ClockGenerator._is_dark_mode` (`src/clock_generator.py` lines 49-64),
with the generator's `dark_mode_start`/`dark_mode_end` attributes passed
explicitly. -/
def is_dark_mode (dark_mode_start dark_mode_end hour : Int) : Bool :=
  if dark_mode_start < dark_mode_end then
    decide (dark_mode_start ≤ hour ∧ hour < dark_mode_end)
  else
    decide (hour ≥ dark_mode_start ∨ hour < dark_mode_end)

/-! ## clock_generator.py — weather data -/

/-- The fields of the OpenWeatherMap response the code reads:
`weather[0].description`, `weather[0].icon`, `main.temp`.  Temperatures are
modelled as integers (Python `round` on an integral float is then the
identity). -/
structure WeatherData where
  description : String
  temp : Int
  icon : String
  deriving Repr, DecidableEq

/-- Outcome of the external `requests.get` call: an HTTP response with a
status code and parsed JSON body, or a raised exception (network error,
timeout, ...). -/
inductive FetchOutcome where
  | response (status : Int) (body : WeatherData)
  | exception
  deriving Repr, DecidableEq

/-- The fixed mock snapshot returned when no API key is configured
(`src/clock_generator.py` lines 72-77). -/
def mock_weather_data : WeatherData :=
  { description := "clear sky", temp := 18, icon := "01d" }

/-- `ClockGenerator._get_weather_data` (lines 66-90).  Returns the weather
snapshot (`none` models Python `None`) together with a flag recording
whether the external fetch was invoked. -/
def get_weather_data (g : ClockGenerator) (fetch : FetchOutcome) :
    Option WeatherData × Bool :=
  if g.display_weather = false then (none, false)
  else if g.weather_api_key = "" then (some mock_weather_data, false)
  else match fetch with
    | .response status body =>
        (if status = 200 then some body else none, true)
    | .exception => (none, true)

/-! ## clock_generator.py — template data -/

/-- Model of Python `str.capitalize`: first character uppercased, the rest
lowercased. -/
def pyCapitalize (s : String) : String :=
  match s.data with
  | [] => ""
  | c :: cs => String.mk (c.toUpper :: cs.map Char.toLower)

/-- The `data['weather']` sub-dictionary built by `_create_template_data`. -/
structure TemplateWeather where
  temp : Int
  description : String
  icon_code : String
  deriving Repr, DecidableEq

/-- The data dictionary built by `_create_template_data`. -/
structure TemplateData where
  time : String
  date : String
  weather : Option TemplateWeather
  deriving Repr, DecidableEq

/-- `ClockGenerator._create_template_data` (lines 113-149).  `current_time`
and `current_date` model the two `strftime` results (external clock
formatting). -/
def create_template_data (current_time current_date : String)
    (weather_data : Option WeatherData) : TemplateData :=
  { time := current_time
    date := current_date
    weather := weather_data.map fun wd =>
      { temp := wd.temp, description := pyCapitalize wd.description,
        icon_code := wd.icon } }

/-! ## template_renderer.py -/

/-- The template file name built in `TemplateRenderer._get_template_path`. -/
def template_name (orientation : String) : String :=
  pyLower orientation ++ "_template.svg"

/-- `TemplateRenderer._get_template_path` (lines 39-56); `path_exists` is the
`os.path.exists` oracle. -/
def get_template_path (template_dir : String) (path_exists : String → Bool)
    (orientation : String) : Option String :=
  let template_path := template_dir ++ "/" ++ template_name orientation
  if path_exists template_path then some template_path else none

/-- A PIL image as far as the claims observe it: pixel dimensions and mode. -/
structure Img where
  width : Int
  height : Int
  mode : String
  deriving Repr, DecidableEq

/-- Outcome of `_populate_template` followed by `cairosvg.svg2png` and
`Image.open` (external I/O): success produces a bitmap in some mode at the
requested output dimensions; `failure` models any exception raised during
substitution or rasterization. -/
inductive RasterOutcome where
  | ok (mode : String)
  | failure
  deriving Repr, DecidableEq

/-- `TemplateRenderer.render_clock` (lines 58-101).  `none` models Python
`None`; the `try`/`except` around substitution and rasterization maps
`RasterOutcome.failure` to `none`.  The function is total: no exception
escapes this boundary. -/
def render_clock (template_dir : String) (path_exists : String → Bool)
    (raster : RasterOutcome) (_data : TemplateData) (width height : Int)
    (orientation : String) (_is_dark : Bool) : Option Img :=
  match get_template_path template_dir path_exists orientation with
  | none => none
  | some _ =>
    match raster with
    | .ok mode =>
        let image : Img := { width := width, height := height, mode := mode }
        some (if image.mode ≠ "L" then { image with mode := "L" } else image)
    | .failure => none

/-! ## weather_icon_generator.py -/

/-- The suffix strip in `WeatherIconGenerator.get_icon` line 37:
`icon_code[:-1] if icon_code.endswith(('d', 'n')) else icon_code`. -/
def stripDayNight (icon_code : String) : String :=
  match icon_code.data.getLast? with
  | some c => if c = 'd' ∨ c = 'n' then String.mk icon_code.data.dropLast
              else icon_code
  | none => icon_code

/-- The `icon_mapping` dictionary (lines 40-50). -/
def icon_mapping (base_code : String) : Option String :=
  if base_code = "01" then some "skc"
  else if base_code = "02" then some "few"
  else if base_code = "03" then some "sct"
  else if base_code = "04" then some "bkn"
  else if base_code = "09" then some "shra"
  else if base_code = "10" then some "ra"
  else if base_code = "11" then some "tsra"
  else if base_code = "13" then some "sn"
  else if base_code = "50" then some "fg"
  else none

/-- The asset file path `self.icons_dir / f"{svg_name}.svg"` selected by
`get_icon` for a condition code, including the `.get(base_code, 'skc')`
default. -/
def icon_svg_path (icons_dir : String) (icon_code : String) : String :=
  icons_dir ++ "/" ++ (icon_mapping (stripDayNight icon_code)).getD "skc" ++ ".svg"

/-- `WeatherIconGenerator.get_icon`, selection part (lines 34-57): the
returned value models which asset the method goes on to tint and rasterize
(the SVG recoloring and `cairosvg` rasterization of lines 59-100 are
external drawing); `none` models the `return None` taken when the selected
asset file is missing (`path_exists` is the `Path.exists` oracle).  The
surrounding `try`/`except` also returns `None` on rasterization errors,
which no claim exercises. -/
def get_icon (icons_dir : String) (path_exists : String → Bool)
    (icon_code : String) : Option String :=
  let base_code := stripDayNight icon_code
  let svg_name := (icon_mapping base_code).getD "skc"
  let svg_path := icons_dir ++ "/" ++ svg_name ++ ".svg"
  if path_exists svg_path then some svg_name else none

/-! ## clock_generator.py — fonts and the composed render -/

/-- A font as selected by the procedural path: `ImageFont.truetype(path,
size)` or the built-in `ImageFont.load_default()`. -/
inductive FontChoice where
  | truetype (path : String) (size : Int)
  | load_default
  deriving Repr, DecidableEq

/-- The four fonts loaded in `create_clock_image` lines 195-207. -/
structure Fonts where
  time_font : FontChoice
  date_font : FontChoice
  weather_font : FontChoice
  weather_desc_font : FontChoice
  deriving Repr, DecidableEq

/-- Font loading, lines 195-207: the four `ImageFont.truetype` calls share
one `try`; if loading the font file fails (`font_load_fails`, the `OSError`
oracle), all four fonts are replaced by the built-in default.
`int(self.weather_font_size * 0.8)` is modelled as truncated division by
5/4 (exact for the integral sizes the configuration carries). -/
def load_fonts (g : ClockGenerator) (font_load_fails : Bool) : Fonts :=
  if font_load_fails then
    { time_font := .load_default, date_font := .load_default,
      weather_font := .load_default, weather_desc_font := .load_default }
  else
    { time_font := .truetype g.font_path g.font_size
      date_font := .truetype g.font_path g.date_font_size
      weather_font := .truetype g.font_path g.weather_font_size
      weather_desc_font := .truetype g.font_path (g.weather_font_size * 4 / 5) }

/-- The observable outcome of `ClockGenerator.create_clock_image`: the
image dimensions and mode-independent facts the claims are about.
`weather_drawn` records whether a weather region is produced (weather data
placed in the template data bag on the template path, the weather block of
lines 237/311 on the procedural path); `fonts` is `none` when the template
path returned an image (fonts are never loaded there). -/
structure RenderResult where
  width : Int
  height : Int
  is_dark : Bool
  weather_fetch_invoked : Bool
  used_template : Bool
  weather_drawn : Bool
  fonts : Option Fonts
  deriving Repr, DecidableEq

/-- `ClockGenerator.create_clock_image` (lines 151-372).  `local_hour`,
`current_time`, `current_date` model the timezone-converted clock reading
and its `strftime` renderings; `fetch`, `path_exists`, `raster`,
`font_load_fails` are the external-effect oracles.  The function is total:
every fallible step in the source is wrapped in `try`/`except` or guarded. -/
def create_clock_image (g : ClockGenerator) (local_hour : Int)
    (current_time current_date : String) (fetch : FetchOutcome)
    (path_exists : String → Bool) (raster : RasterOutcome)
    (font_load_fails : Bool) : RenderResult :=
  let is_dark := is_dark_mode g.dark_mode_start g.dark_mode_end local_hour
  let wres := if g.display_weather then get_weather_data g fetch
              else (none, false)
  let weather_data := wres.1
  let procedural : RenderResult :=
    { width := g.width, height := g.height, is_dark := is_dark,
      weather_fetch_invoked := wres.2, used_template := false,
      weather_drawn := g.display_weather && weather_data.isSome,
      fonts := some (load_fonts g font_load_fails) }
  if g.use_templates then
    let template_data := create_template_data current_time current_date weather_data
    let orientation := if g.portrait_mode then "portrait" else "landscape"
    match render_clock g.template_dir path_exists raster template_data
        g.width g.height orientation is_dark with
    | some image =>
        { width := image.width, height := image.height, is_dark := is_dark,
          weather_fetch_invoked := wres.2, used_template := true,
          weather_drawn := template_data.weather.isSome, fonts := none }
    | none => procedural
  else procedural

/-- The weather snapshot available to a render (line 160 of
`create_clock_image` combined with `_get_weather_data`); `none` means the
snapshot is absent. -/
def weather_snapshot (g : ClockGenerator) (fetch : FetchOutcome) :
    Option WeatherData :=
  if g.display_weather then (get_weather_data g fetch).1 else none

/-! ## api.py — the /clock.png endpoint -/

/-- The orientation handling of `api.get_clock` (lines 130-141): on an
explicit orientation parameter, set `portrait_mode` accordingly and swap the
generator's width/height when portrait was requested and width > height; an
absent parameter leaves the generator as configured. -/
def apply_orientation (orientation : Option Orientation)
    (g : ClockGenerator) : ClockGenerator :=
  match orientation with
  | none => g
  | some o =>
    let is_portrait := decide (o = Orientation.portrait)
    let g1 := { g with portrait_mode := is_portrait }
    if is_portrait && decide (g1.width > g1.height) then
      { g1 with width := g1.height, height := g1.width }
    else g1

/-- Whether portrait mode is active for a render: from the request's
orientation parameter when supplied, else from the configured default. -/
def effective_portrait (orientation : Option Orientation)
    (g : ClockGenerator) : Bool :=
  match orientation with
  | some o => decide (o = Orientation.portrait)
  | none => g.portrait_mode

/-- The cache-miss path of `api.get_clock`: build the generator, apply the
orientation parameter, render. -/
def get_clock_render (orientation : Option Orientation) (g : ClockGenerator)
    (local_hour : Int) (current_time current_date : String)
    (fetch : FetchOutcome) (path_exists : String → Bool)
    (raster : RasterOutcome) (font_load_fails : Bool) : RenderResult :=
  create_clock_image (apply_orientation orientation g) local_hour
    current_time current_date fetch path_exists raster font_load_fails

end SumiClock

namespace SumiClock

/-! ## Theorems: dark mode -/

/-- Sanity checks of the embedding against the repository tests
(`test_dark_mode_detection`, window (18, 6)). -/
theorem is_dark_mode_matches_tests :
    is_dark_mode 18 6 12 = false ∧ is_dark_mode 18 6 20 = true ∧
    is_dark_mode 18 6 5 = true ∧ is_dark_mode 18 6 18 = true ∧
    is_dark_mode 18 6 6 = false := by
  decide

/-- Claim C2: for every window (darkStart, darkEnd) and hour, if
darkStart < darkEnd the predicate is true iff darkStart ≤ hour < darkEnd;
otherwise it is true iff hour ≥ darkStart or hour < darkEnd; in particular
for window (18, 6), exactly the hours with hour ≥ 18 or hour < 6 are dark
(so 18..23 and 0..5 dark, 6..17 light).  Boundaries: start inclusive, end
exclusive in both branches. -/
theorem dark_mode_window_semantics (s e h : Int) :
    (s < e → (is_dark_mode s e h = true ↔ s ≤ h ∧ h < e)) ∧
    (¬ s < e → (is_dark_mode s e h = true ↔ h ≥ s ∨ h < e)) ∧
    (is_dark_mode 18 6 h = true ↔ 18 ≤ h ∨ h < 6) := by
  refine ⟨fun hs => ?_, fun hs => ?_, ?_⟩
  · simp [is_dark_mode, hs]
  · simp [is_dark_mode, hs]
  · have h18 : ¬ (18 : Int) < 6 := by decide
    simp [is_dark_mode, h18]

/-- Witness for `dark_mode_window_semantics` at concrete windows and hours,
discharging the hypotheses of both branches. -/
theorem dark_mode_window_semantics_witness :
    is_dark_mode 2 5 3 = true ∧ is_dark_mode 18 6 20 = true := by
  constructor
  · exact ((dark_mode_window_semantics 2 5 3).1 (by decide)).mpr (by decide)
  · exact ((dark_mode_window_semantics 18 6 20).2.1 (by decide)).mpr (by decide)

/-- Claim C3 counterexample: the claim predicts that for window (6, 18)
hour 10 is light (dark iff NOT in [6, 18)), but the code takes the
`darkStart < darkEnd` branch and marks hour 10 dark and hour 20 light. -/
theorem dark_window_6_18_counterexample :
    is_dark_mode 6 18 10 = true ∧ is_dark_mode 6 18 20 = false := by
  decide

/-- Claim C3 amended: for window (6, 18) the predicate is true exactly for
the hours IN [6, 18) — hours 6..17 are dark and hours 18..23 and 0..5 are
light (start inclusive, end exclusive). -/
theorem dark_window_6_18 (h : Int) :
    is_dark_mode 6 18 h = true ↔ 6 ≤ h ∧ h < 18 := by
  have h6 : (6 : Int) < 18 := by decide
  simp [is_dark_mode, h6]

/-! ## Theorems: image dimensions -/

/-- A generator state matching the repository test fixture
(`tests/test_clock_generator.py` `mock_config`, with `font_size`
already scaled by 1.4 as `__init__` does). -/
def testGen : ClockGenerator :=
  { width := 1448, height := 1072, font_size := 280
    font_path := "/usr/share/fonts/opentype/noto/NotoSansCJK-Bold.ttc"
    date_font_size := 100, weather_font_size := 120, timezone := "UTC"
    dark_mode_start := 18, dark_mode_end := 6, display_weather := false
    weather_api_key := "", weather_city := "Tokyo", weather_units := "metric"
    weather_icon_size := (180, 180), portrait_mode := false
    use_templates := true, template_dir := "templates" }

/-- An image returned by `render_clock` has exactly the requested
dimensions (`cairosvg.svg2png` is called with `output_width`/
`output_height`, and the grayscale conversion keeps the size). -/
theorem render_clock_size (template_dir : String) (pe : String → Bool)
    (raster : RasterOutcome) (data : TemplateData) (w h : Int)
    (o : String) (d : Bool) (img : Img)
    (himg : render_clock template_dir pe raster data w h o d = some img) :
    img.width = w ∧ img.height = h := by
  unfold render_clock at himg
  rcases hpath : get_template_path template_dir pe o with _ | p <;>
    rw [hpath] at himg
  · exact absurd himg (by simp)
  · cases raster with
    | ok mode =>
        simp only [Option.some.injEq] at himg
        subst himg
        split <;> exact ⟨rfl, rfl⟩
    | failure => exact absurd himg (by simp)

/-- `create_clock_image` always produces an image of exactly the
generator's current (width, height): both the template path and the
procedural path use `self.width`/`self.height` unchanged. -/
theorem create_clock_image_size (g : ClockGenerator) (lh : Int)
    (ct cd : String) (fetch : FetchOutcome) (pe : String → Bool)
    (raster : RasterOutcome) (flf : Bool) :
    (create_clock_image g lh ct cd fetch pe raster flf).width = g.width ∧
    (create_clock_image g lh ct cd fetch pe raster flf).height = g.height := by
  unfold create_clock_image
  simp only
  split
  · split
    · next image heq => exact render_clock_size _ _ _ _ _ _ _ _ _ heq
    · exact ⟨rfl, rfl⟩
  · exact ⟨rfl, rfl⟩

/-- `apply_orientation` swaps the configured dimensions exactly when the
request carries an explicit portrait orientation and width > height. -/
theorem apply_orientation_size (o : Option Orientation) (g : ClockGenerator) :
    ((o = some Orientation.portrait ∧ g.width > g.height) →
      (apply_orientation o g).width = g.height ∧
      (apply_orientation o g).height = g.width) ∧
    (¬ (o = some Orientation.portrait ∧ g.width > g.height) →
      (apply_orientation o g).width = g.width ∧
      (apply_orientation o g).height = g.height) := by
  rcases o with _ | o
  · exact ⟨fun hc => absurd hc.1 (by simp), fun _ => ⟨rfl, rfl⟩⟩
  · cases o with
    | landscape =>
        refine ⟨fun hc => absurd hc.1 (by simp), fun _ => ?_⟩
        simp [apply_orientation]
    | portrait =>
        constructor
        · intro hc
          simp [apply_orientation, hc.2]
        · intro hc
          have hng : ¬ g.width > g.height := fun hg => hc ⟨rfl, hg⟩
          simp [apply_orientation, hng]

/-- Claim C1 counterexample: with the test-fixture configuration
(width 1448 > height 1072) and portrait mode coming from the configured
portrait-mode default (no orientation request parameter), portrait is
active and width > height, yet the rendered image keeps dimensions
(1448, 1072) instead of the swapped (1072, 1448) the claim predicts. -/
theorem render_dimensions_counterexample :
    effective_portrait none { testGen with portrait_mode := true } = true ∧
    ({ testGen with portrait_mode := true } : ClockGenerator).width >
      ({ testGen with portrait_mode := true } : ClockGenerator).height ∧
    (get_clock_render none { testGen with portrait_mode := true } 12 "12:00"
        "Sunday, October 12, 2025" .exception (fun _ => false) .failure
        false).width = 1448 ∧
    (get_clock_render none { testGen with portrait_mode := true } 12 "12:00"
        "Sunday, October 12, 2025" .exception (fun _ => false) .failure
        false).height = 1072 ∧
    ((1448 : Int), (1072 : Int)) ≠ ((1072 : Int), (1448 : Int)) := by
  decide

/-- Claim C1 amended: the rendered image has dimensions (height, width)
swapped exactly when the request's orientation parameter is portrait and
the configured width > height; in every other case — including a portrait
default coming from the configuration with no orientation parameter — the
dimensions are the configured (width, height) unchanged. -/
theorem render_dimensions (g : ClockGenerator) (orientation : Option Orientation)
    (lh : Int) (ct cd : String) (fetch : FetchOutcome) (pe : String → Bool)
    (raster : RasterOutcome) (flf : Bool) :
    ((orientation = some Orientation.portrait ∧ g.width > g.height) →
      (get_clock_render orientation g lh ct cd fetch pe raster flf).width
          = g.height ∧
      (get_clock_render orientation g lh ct cd fetch pe raster flf).height
          = g.width) ∧
    (¬ (orientation = some Orientation.portrait ∧ g.width > g.height) →
      (get_clock_render orientation g lh ct cd fetch pe raster flf).width
          = g.width ∧
      (get_clock_render orientation g lh ct cd fetch pe raster flf).height
          = g.height) := by
  have hsize := create_clock_image_size (apply_orientation orientation g)
    lh ct cd fetch pe raster flf
  have happ := apply_orientation_size orientation g
  constructor
  · intro hc
    refine ⟨hsize.1.trans (happ.1 hc).1, hsize.2.trans (happ.1 hc).2⟩
  · intro hc
    refine ⟨hsize.1.trans (happ.2 hc).1, hsize.2.trans (happ.2 hc).2⟩

/-- Witness for `render_dimensions`: explicit portrait request on the
1448×1072 fixture swaps to 1072×1448; no orientation parameter leaves
1448×1072. -/
theorem render_dimensions_witness :
    ((get_clock_render (some Orientation.portrait) testGen 12 "12:00" "d"
        .exception (fun _ => false) .failure false).width = 1072 ∧
     (get_clock_render (some Orientation.portrait) testGen 12 "12:00" "d"
        .exception (fun _ => false) .failure false).height = 1448) ∧
    ((get_clock_render none testGen 12 "12:00" "d"
        .exception (fun _ => false) .failure false).width = 1448 ∧
     (get_clock_render none testGen 12 "12:00" "d"
        .exception (fun _ => false) .failure false).height = 1072) := by
  constructor
  · exact (render_dimensions testGen (some Orientation.portrait) 12 "12:00" "d"
      .exception (fun _ => false) .failure false).1 ⟨rfl, by decide⟩
  · exact (render_dimensions testGen none 12 "12:00" "d"
      .exception (fun _ => false) .failure false).2 (by simp)

/-! ## Theorems: weather presence and absence -/

/-- Claim C4: when weather is disabled or the weather snapshot is absent,
the render produces no weather region (neither the template data bag nor
the procedural weather block carries weather), and when weather is
disabled the external fetch is never invoked.  `create_clock_image` is a
total function, so the render also completes without an error on account
of the missing weather. -/
theorem no_weather_no_region (g : ClockGenerator) (lh : Int) (ct cd : String)
    (fetch : FetchOutcome) (pe : String → Bool) (raster : RasterOutcome)
    (flf : Bool) :
    ((g.display_weather = false ∨ weather_snapshot g fetch = none) →
      (create_clock_image g lh ct cd fetch pe raster flf).weather_drawn
        = false) ∧
    (g.display_weather = false →
      (create_clock_image g lh ct cd fetch pe raster flf).weather_fetch_invoked
        = false) := by
  cases hd : g.display_weather with
  | false =>
      refine ⟨fun _ => ?_, fun _ => ?_⟩ <;>
      · simp only [create_clock_image, hd]
        split
        · split <;> simp [create_template_data]
        · simp
  | true =>
      constructor
      · intro h0
        have hsnap : (get_weather_data g fetch).1 = none := by
          rcases h0 with h0 | h0
          · simp at h0
          · unfold weather_snapshot at h0; rw [hd] at h0; simpa using h0
        simp only [create_clock_image, hd]
        split
        · split <;> simp [create_template_data, hsnap]
        · simp [hsnap]
      · intro h0; simp at h0

/-- Witness for `no_weather_no_region` on the weather-disabled fixture. -/
theorem no_weather_no_region_witness :
    (create_clock_image testGen 12 "12:00" "d" .exception (fun _ => false)
        .failure false).weather_drawn = false ∧
    (create_clock_image testGen 12 "12:00" "d" .exception (fun _ => false)
        .failure false).weather_fetch_invoked = false :=
  ⟨(no_weather_no_region testGen 12 "12:00" "d" .exception (fun _ => false)
      .failure false).1 (Or.inl rfl),
   (no_weather_no_region testGen 12 "12:00" "d" .exception (fun _ => false)
      .failure false).2 rfl⟩

/-- Claim C10: with weather enabled and an empty API key, the fetch helper
returns the fixed mock snapshot ("clear sky", 18, "01d") without invoking
the external provider, and a render then does carry a weather region. -/
theorem mock_weather_when_no_key (g : ClockGenerator) (fetch : FetchOutcome)
    (lh : Int) (ct cd : String) (pe : String → Bool) (raster : RasterOutcome)
    (flf : Bool) (hd : g.display_weather = true)
    (hk : g.weather_api_key = "") :
    get_weather_data g fetch = (some mock_weather_data, false) ∧
    (create_clock_image g lh ct cd fetch pe raster flf).weather_drawn
      = true := by
  have h1 : get_weather_data g fetch = (some mock_weather_data, false) := by
    simp [get_weather_data, hd, hk]
  refine ⟨h1, ?_⟩
  simp only [create_clock_image, hd]
  split
  · split <;> simp [create_template_data, h1]
  · simp [h1]

/-- Witness for `mock_weather_when_no_key` on the fixture with weather
enabled and no API key. -/
theorem mock_weather_when_no_key_witness :
    get_weather_data { testGen with display_weather := true } .exception
      = (some mock_weather_data, false) ∧
    (create_clock_image { testGen with display_weather := true } 12 "12:00"
        "d" .exception (fun _ => false) .failure false).weather_drawn
      = true :=
  mock_weather_when_no_key { testGen with display_weather := true }
    .exception 12 "12:00" "d" (fun _ => false) .failure false rfl rfl

/-! ## Theorems: font fallback -/

/-- Claim C8: whenever the procedural path is taken and loading the
configured font fails (the shared `try` around the four `truetype` calls),
all of the fonts — time, date, weather and weather description — are the
built-in default, and the render still completes (the embedding is a total
function; the `OSError` is caught). -/
theorem font_fallback (g : ClockGenerator) (lh : Int) (ct cd : String)
    (fetch : FetchOutcome) (pe : String → Bool) (raster : RasterOutcome)
    (hproc : (create_clock_image g lh ct cd fetch pe raster
        true).used_template = false) :
    (create_clock_image g lh ct cd fetch pe raster true).fonts =
      some { time_font := .load_default, date_font := .load_default,
             weather_font := .load_default,
             weather_desc_font := .load_default } := by
  simp only [create_clock_image] at hproc ⊢
  split at hproc
  · next hu =>
      split at hproc
      · next heq => simp at hproc
      · next heq => simp [hu, heq, load_fonts]
  · next hu => simp [hu, load_fonts]

/-- Witness for `font_fallback` on a fixture with templates disabled. -/
theorem font_fallback_witness :
    (create_clock_image { testGen with use_templates := false } 12 "12:00"
        "d" .exception (fun _ => false) .failure true).fonts =
      some { time_font := .load_default, date_font := .load_default,
             weather_font := .load_default,
             weather_desc_font := .load_default } :=
  font_fallback { testGen with use_templates := false } 12 "12:00" "d"
    .exception (fun _ => false) .failure rfl

/-! ## Theorems: cache keys -/

/-- Appending to a common prefix string is injective. -/
theorem string_append_left_cancel {a b c : String} (h : a ++ b = a ++ c) :
    b = c := by
  obtain ⟨la⟩ := a
  obtain ⟨lb⟩ := b
  obtain ⟨lc⟩ := c
  have h2 : la ++ lb = la ++ lc := congrArg String.data h
  exact congrArg String.mk (List.append_cancel_left h2)

/-- Claim C5: the cache key is `"clock_image:" + timezone`, followed by
`":" + orientation` exactly when an orientation is supplied, followed by
`":" + minute`; with timezone and orientation fixed, equal minute strings
give identical keys (the function is deterministic) and distinct minute
strings — in particular the `YYYYMMDDHHmm` renderings of two different
minutes — give distinct keys. -/
theorem cache_key_format (tz : String) (o : Orientation) (m m1 m2 : String) :
    get_cache_key tz (some o) m
      = "clock_image:" ++ tz ++ ":" ++ o.value ++ ":" ++ m ∧
    get_cache_key tz none m = "clock_image:" ++ tz ++ ":" ++ m ∧
    (∀ o2 : Option Orientation, m1 ≠ m2 →
      get_cache_key tz o2 m1 ≠ get_cache_key tz o2 m2) := by
  refine ⟨?_, ?_, ?_⟩
  · simp [get_cache_key, String.append_assoc]
  · simp [get_cache_key]
  · intro o2 hm heq
    apply hm
    simp only [get_cache_key] at heq
    exact string_append_left_cancel heq

/-- Witness for `cache_key_format`: concrete key layout, and two adjacent
minutes give different keys. -/
theorem cache_key_format_witness :
    get_cache_key "Asia/Tokyo" (some Orientation.portrait) "202510121234"
      = "clock_image:Asia/Tokyo:portrait:202510121234" ∧
    get_cache_key "Asia/Tokyo" none "202510121234"
      ≠ get_cache_key "Asia/Tokyo" none "202510121235" := by
  constructor
  · exact ((cache_key_format "Asia/Tokyo" Orientation.portrait "202510121234"
      "" "").1).trans (by decide)
  · exact (cache_key_format "Asia/Tokyo" Orientation.portrait ""
      "202510121234" "202510121235").2.2 none (by decide)

/-! ## Theorems: template fallback -/

/-- Claim C6: the template renderer resolves the template document by
orientation name; when that file does not exist it returns absent, and
when substitution or rasterization fails it returns absent — in both cases
without raising (the embedding is a total function into `Option`), so the
composer can fall back to procedural drawing. -/
theorem template_render_fallback (template_dir : String)
    (pe : String → Bool) (raster : RasterOutcome) (data : TemplateData)
    (w h : Int) (o : String) (d : Bool) :
    (pe (template_dir ++ "/" ++ template_name o) = false →
      render_clock template_dir pe raster data w h o d = none) ∧
    (raster = .failure →
      render_clock template_dir pe raster data w h o d = none) := by
  constructor
  · intro hp
    unfold render_clock get_template_path
    simp [hp]
  · intro hr
    subst hr
    unfold render_clock
    split <;> rfl

/-- Witness for `template_render_fallback`: with the template file missing,
and with rasterization failing. -/
theorem template_render_fallback_witness :
    render_clock "templates" (fun _ => false) (.ok "L")
      { time := "12:00", date := "d", weather := none } 1448 1072
      "landscape" false = none ∧
    render_clock "templates" (fun _ => true) .failure
      { time := "12:00", date := "d", weather := none } 1448 1072
      "landscape" false = none :=
  ⟨(template_render_fallback "templates" (fun _ => false) (.ok "L")
      { time := "12:00", date := "d", weather := none } 1448 1072
      "landscape" false).1 rfl,
   (template_render_fallback "templates" (fun _ => true) .failure
      { time := "12:00", date := "d", weather := none } 1448 1072
      "landscape" false).2 rfl⟩

/-! ## Theorems: weather icon lookup -/

/-- `stripDayNight` removes a trailing `'d'` or `'n'`. -/
theorem stripDayNight_strips (c : String) :
    stripDayNight (c ++ "d") = c ∧ stripDayNight (c ++ "n") = c := by
  obtain ⟨l⟩ := c
  refine ⟨?_, ?_⟩
  · show stripDayNight (String.mk (l ++ ['d'])) = String.mk l
    simp [stripDayNight]
  · show stripDayNight (String.mk (l ++ ['n'])) = String.mk l
    simp [stripDayNight]

/-- `stripDayNight` keeps a code whose last character is neither `'d'` nor
`'n'` (and the empty code) unchanged. -/
theorem stripDayNight_keeps (c : String)
    (h1 : c.data.getLast? ≠ some 'd') (h2 : c.data.getLast? ≠ some 'n') :
    stripDayNight c = c := by
  unfold stripDayNight
  rcases hl : c.data.getLast? with _ | ch
  · rfl
  · have hne : ¬ (ch = 'd' ∨ ch = 'n') := by
      rintro (rfl | rfl)
      · exact h1 hl
      · exact h2 hl
    simp [hne]

/-- Claim C7: the icon lookup strips a trailing day/night suffix, maps the
base code through the fixed nine-entry table, defaults every unknown base
code to the clear-sky asset `skc`, and returns absent (never raising — the
embedding is total) when the selected asset file is missing. -/
theorem icon_lookup_spec :
    (∀ c : String, stripDayNight (c ++ "d") = c ∧ stripDayNight (c ++ "n") = c) ∧
    (∀ c : String, c.data.getLast? ≠ some 'd' → c.data.getLast? ≠ some 'n' →
      stripDayNight c = c) ∧
    (icon_mapping "01" = some "skc" ∧ icon_mapping "02" = some "few" ∧
     icon_mapping "03" = some "sct" ∧ icon_mapping "04" = some "bkn" ∧
     icon_mapping "09" = some "shra" ∧ icon_mapping "10" = some "ra" ∧
     icon_mapping "11" = some "tsra" ∧ icon_mapping "13" = some "sn" ∧
     icon_mapping "50" = some "fg") ∧
    (∀ b : String, b ≠ "01" → b ≠ "02" → b ≠ "03" → b ≠ "04" → b ≠ "09" →
      b ≠ "10" → b ≠ "11" → b ≠ "13" → b ≠ "50" →
      (icon_mapping b).getD "skc" = "skc") ∧
    (∀ (dir : String) (pe : String → Bool) (c : String),
      pe (icon_svg_path dir c) = false → get_icon dir pe c = none) := by
  refine ⟨stripDayNight_strips, stripDayNight_keeps, by decide, ?_, ?_⟩
  · intro b h1 h2 h3 h4 h5 h6 h7 h8 h9
    simp [icon_mapping, h1, h2, h3, h4, h5, h6, h7, h8, h9]
  · intro dir pe c h
    simp only [icon_svg_path] at h
    simp only [get_icon]
    simp [h]

/-- Witness for `icon_lookup_spec`: suffix stripping, table default and
missing-asset absence at concrete inputs. -/
theorem icon_lookup_spec_witness :
    stripDayNight ("01" ++ "d") = "01" ∧ stripDayNight "10" = "10" ∧
    (icon_mapping "99").getD "skc" = "skc" ∧
    get_icon "weather_icons" (fun _ => false) "01d" = none := by
  refine ⟨(icon_lookup_spec.1 "01").1, ?_, ?_, ?_⟩
  · exact icon_lookup_spec.2.1 "10" (by decide) (by decide)
  · exact icon_lookup_spec.2.2.2.1 "99" (by decide) (by decide) (by decide)
      (by decide) (by decide) (by decide) (by decide) (by decide) (by decide)
  · exact icon_lookup_spec.2.2.2.2 "weather_icons" (fun _ => false) "01d" rfl

/-! ## Theorems: configuration environment overrides -/

/-- A file configuration matching `config.yaml` defaults merged with the
`__init__` defaults of the clock generator. -/
def testFileConfig : AppConfig :=
  { redis := { host := "redis", port := 6379, cache_expire_seconds := 30 }
    clock :=
      { timezone := "UTC", width := 1448, height := 1072, font_size := 200
        font_path := "/usr/share/fonts/opentype/noto/NotoSansCJK-Bold.ttc"
        date_font_size := 100, weather_font_size := 120
        dark_mode_start := 18, dark_mode_end := 6, display_weather := false
        weather_api_key := "", weather_city := "Tokyo"
        weather_units := "metric", weather_icon_size := (180, 180)
        portrait_mode := false, use_templates := true
        template_dir := "templates" } }

/-- An environment carrying only `SUMICLOCK_WIDTH`. -/
def envWidthOnly : String → Option String :=
  fun k => if k = "SUMICLOCK_WIDTH" then some "500" else none

/-- Claim C9 counterexample: with `SUMICLOCK_WIDTH=500` set in the
environment, the loaded configuration keeps the file value 1448 for the
canvas width — the width (like every key other than the cache host/port/TTL
and the timezone) is not overridable by an environment variable. -/
theorem env_override_counterexample :
    envWidthOnly "SUMICLOCK_WIDTH" = some "500" ∧
    (load_config envWidthOnly testFileConfig).clock.width = 1448 ∧
    (1448 : Int) ≠ 500 := by
  decide

/-- Claim C9 amended: exactly four configuration values consult the
process environment with the `SUMICLOCK_` naming convention — the cache
host (`SUMICLOCK_REDIS_HOST`), cache port (`SUMICLOCK_REDIS_PORT`), cache
TTL (`SUMICLOCK_REDIS_CACHE_EXPIRE_SECONDS`, the numeric ones parsed with
`int`) and the timezone (`SUMICLOCK_TIMEZONE`); every other configuration
value (canvas dimensions, font sizes and asset path, dark-mode window,
weather settings, portrait-mode default, template directory) is taken from
the file unchanged regardless of the environment. -/
theorem env_overrides (env : String → Option String) (file : AppConfig) :
    (load_config env file).redis.host
      = (env "SUMICLOCK_REDIS_HOST").getD file.redis.host ∧
    (load_config env file).redis.port
      = pyInt ((env "SUMICLOCK_REDIS_PORT").getD (toString file.redis.port)) ∧
    (load_config env file).redis.cache_expire_seconds
      = pyInt ((env "SUMICLOCK_REDIS_CACHE_EXPIRE_SECONDS").getD
          (toString file.redis.cache_expire_seconds)) ∧
    (load_config env file).clock.timezone
      = (env "SUMICLOCK_TIMEZONE").getD file.clock.timezone ∧
    (load_config env file).clock.width = file.clock.width ∧
    (load_config env file).clock.height = file.clock.height ∧
    (load_config env file).clock.font_size = file.clock.font_size ∧
    (load_config env file).clock.font_path = file.clock.font_path ∧
    (load_config env file).clock.date_font_size = file.clock.date_font_size ∧
    (load_config env file).clock.weather_font_size
      = file.clock.weather_font_size ∧
    (load_config env file).clock.dark_mode_start = file.clock.dark_mode_start ∧
    (load_config env file).clock.dark_mode_end = file.clock.dark_mode_end ∧
    (load_config env file).clock.display_weather = file.clock.display_weather ∧
    (load_config env file).clock.weather_api_key = file.clock.weather_api_key ∧
    (load_config env file).clock.weather_city = file.clock.weather_city ∧
    (load_config env file).clock.weather_units = file.clock.weather_units ∧
    (load_config env file).clock.weather_icon_size
      = file.clock.weather_icon_size ∧
    (load_config env file).clock.portrait_mode = file.clock.portrait_mode ∧
    (load_config env file).clock.use_templates = file.clock.use_templates ∧
    (load_config env file).clock.template_dir = file.clock.template_dir :=
  ⟨rfl, rfl, rfl, rfl, rfl, rfl, rfl, rfl, rfl, rfl, rfl, rfl, rfl, rfl,
   rfl, rfl, rfl, rfl, rfl, rfl⟩

end SumiClock
